import Mathlib

/-!
# Windows service collector (`we_wmi_service.c`)

A shallow embedding of `plugins/in_windows_exporter_metrics/we_wmi_service.c`
and the properties of its collection cycle.

Conventions of the embedding.

* A C string is the list of its characters; the terminating NUL is implicit
  (the end of the list), and a NUL inside the list ends the string early,
  exactly as it would for the C library.
* A NULL-terminated `char *[]` is the list of its entries before the NULL.
* A pointer that may be NULL is an `Option`.
* The gauge values written by the collector are the literals `1.0` and `0.0`;
  both are exact, and gauge values are modelled as rationals.
* Calls into the metrics library, the WMI transport and the allocator are
  recorded as a trace of events; their outcomes are parameters.
* `flb_free` and `flb_errno` change nothing the collector reads back and are
  not recorded.
-/

set_option autoImplicit false

namespace WmiService

/-! ## C strings and `strcasecmp` -/

/-- Contents of a NUL-terminated C string. -/
abbrev CStr := List Char

/-- The NUL character. -/
def NUL : Char := Char.ofNat 0

/-- The characters of a C string that precede its first NUL. -/
def cstr (s : CStr) : CStr := s.takeWhile (fun c => c != NUL)

/-- C library `tolower` in the "C" locale: only `A`..`Z` are mapped. -/
def tolower (c : Char) : Nat :=
  if 65 ≤ c.toNat ∧ c.toNat ≤ 90 then c.toNat + 32 else c.toNat

/-- C library `strcasecmp`: walk both strings, comparing the lower-cased
characters; stop at the first difference or at the end of the strings.
The result is the difference of the two lower-cased characters. -/
def strcasecmp : CStr → CStr → Int
  | [], [] => 0
  | [], b :: _ => 0 - (tolower b : Int)
  | a :: _, [] => (tolower a : Int) - 0
  | a :: s1, b :: s2 =>
    if (tolower a : Int) - (tolower b : Int) = 0 then
      if a = NUL then 0 else strcasecmp s1 s2
    else (tolower a : Int) - (tolower b : Int)

/-- Two C strings are equal ignoring ASCII case: they have the same
characters once every `A`..`Z` is replaced by its lower-case letter. -/
def eqIgnoreAsciiCase (s v : CStr) : Prop :=
  (cstr s).map tolower = (cstr v).map tolower

instance (s v : CStr) : Decidable (eqIgnoreAsciiCase s v) := by
  unfold eqIgnoreAsciiCase; infer_instance

/-! ## Metrics library handles and observations -/

/-- A gauge family as declared by `cmt_gauge_create`. -/
structure cmt_gauge where
  ns : String
  subsystem : String
  name : String
  help : String
  label_count : Nat
  label_keys : List String
deriving DecidableEq, Repr

/-- One call `cmt_gauge_set(gauge, timestamp, val, labels_count, label_vals)`. -/
structure Observation where
  gauge : Option cmt_gauge
  timestamp : Nat
  val : Rat
  labels_count : Nat
  label_vals : List CStr
deriving DecidableEq, Repr

/-- Calls made by the collector, in program order. -/
inductive Event where
  | plg_error (msg : String)
  | coinitialize (ok : Bool)
  | time_now (t : Nat)
  | execute_query (ok : Bool)
  | enumerator_next (got : Bool)
  | gauge_set (o : Observation)
  | object_release
  | enumerator_release
  | cleanup
deriving DecidableEq, Repr

/-- The observations of a trace: the arguments of its `cmt_gauge_set` calls. -/
def observations : List Event → List Observation
  | [] => []
  | Event.gauge_set o :: es => o :: observations es
  | _ :: es => observations es

/-- The loop
`for (i = 0; vocabulary[i] != NULL; i++) { if (strcasecmp(value, vocabulary[i]) == 0) set 1.0 else set 0.0 }`
of `we_wmi_service_update`, which appears once per family (state, start mode,
status) with the family's gauge and vocabulary. -/
def onehot_loop (gauge : Option cmt_gauge) (timestamp : Nat) (service_name value : CStr) :
    List CStr → List Event
  | [] => []
  | entry :: rest =>
    (if strcasecmp value entry = 0 then
        Event.gauge_set ⟨gauge, timestamp, 1, 2, [service_name, entry]⟩
      else
        Event.gauge_set ⟨gauge, timestamp, 0, 2, [service_name, entry]⟩)
      :: onehot_loop gauge timestamp service_name value rest

/-- The vocabulary `states` of `we_wmi_service_update`. -/
def states : List CStr :=
  ["stopped".toList, "start pending".toList, "stop pending".toList, "running".toList,
   "continue pending".toList, "pause pending".toList, "paused".toList, "unknown".toList]

/-- The vocabulary `statuses` of `we_wmi_service_update`. -/
def statuses : List CStr :=
  ["ok".toList, "error".toList, "degraded".toList, "unknown".toList,
   "pred fail".toList, "starting".toList, "stopping".toList, "service".toList,
   "stressed".toList, "nonrecover".toList, "no contact".toList, "lost comm".toList]

/-- The vocabulary `start_modes` of `we_wmi_service_update`. -/
def start_modes : List CStr :=
  ["boot".toList, "system".toList, "auto".toList, "manual".toList, "disabled".toList]

/-! ## Collector state -/

/-- Metric kinds of the metrics library. -/
inductive cmt_type where
  | CMT_COUNTER
  | CMT_GAUGE
  | CMT_HISTOGRAM
  | CMT_SUMMARY
  | CMT_UNTYPED
deriving DecidableEq, Repr

/-- The function `nop_adjust`: the identity value transform. -/
def nop_adjust (value : Rat) : Rat := value

/-- The fields of `struct wmi_query_spec` that `we_wmi_service_init` fills. -/
structure wmi_query_spec where
  metric_instance : Option cmt_gauge
  type : cmt_type
  value_adjuster : Rat → Rat
  wmi_counter : String
  wmi_property : String
  label_property_count : Nat
  label_property_keys : Option (List String)
  where_clause : Option String

/-- The fields of `struct we_wmi_service_counters`. -/
structure we_wmi_service_counters where
  operational : Bool
  information : Option cmt_gauge
  state : Option cmt_gauge
  start_mode : Option cmt_gauge
  status : Option cmt_gauge
  info : Option wmi_query_spec

/-- The fields of `struct flb_we` used by the service collector: the metrics
context (the gauge families registered so far), the configured WHERE clause
and the collector state. -/
structure flb_we where
  cmt : List cmt_gauge
  raw_where_clause : Option String
  wmi_service : Option we_wmi_service_counters

/-- Outcome of each allocation and gauge-family construction that
`we_wmi_service_init` may perform (`true` = the call returns non-NULL). -/
structure InitEnv where
  calloc_counters : Bool
  create_information : Bool
  create_state : Bool
  create_start_mode : Bool
  create_status : Bool
  calloc_spec : Bool

/-- The metrics library call `cmt_gauge_create`: on success the family is
registered in the metrics context and its handle returned, on failure NULL is
returned and the context is unchanged. -/
def cmt_gauge_create (ok : Bool) (cmt : List cmt_gauge) (ns subsystem name help : String)
    (label_count : Nat) (label_keys : List String) : Option cmt_gauge × List cmt_gauge :=
  if ok then
    (some ⟨ns, subsystem, name, help, label_count, label_keys⟩,
     cmt ++ [⟨ns, subsystem, name, help, label_count, label_keys⟩])
  else (none, cmt)

/-- The function `we_wmi_service_init`: returns the status code and the
context as the function leaves it. -/
def we_wmi_service_init (env : InitEnv) (ctx : flb_we) : Int × flb_we :=
  -- ctx->wmi_service = flb_calloc(1, sizeof(struct we_wmi_service_counters));
  if !env.calloc_counters then
    (-1, { ctx with wmi_service := none })
  else
    -- zeroed memory, then ctx->wmi_service->operational = FLB_FALSE;
    let svc0 : we_wmi_service_counters :=
      { operational := false, information := none, state := none,
        start_mode := none, status := none, info := none }
    match cmt_gauge_create env.create_information ctx.cmt "windows" "service" "info"
        "A metric for Windows Service information"
        4 ["name", "display_name", "process_id", "run_as"] with
    | (none, cmt1) => (-1, { ctx with cmt := cmt1, wmi_service := some svc0 })
    | (some g1, cmt1) =>
      let svc1 := { svc0 with information := some g1 }
      match cmt_gauge_create env.create_state cmt1 "windows" "service" "state"
          "A state of the service" 2 ["name", "state"] with
      | (none, cmt2) => (-1, { ctx with cmt := cmt2, wmi_service := some svc1 })
      | (some g2, cmt2) =>
        let svc2 := { svc1 with state := some g2 }
        match cmt_gauge_create env.create_start_mode cmt2 "windows" "service" "start_mode"
            "A start mode of the service" 2 ["name", "start_mode"] with
        | (none, cmt3) => (-1, { ctx with cmt := cmt3, wmi_service := some svc2 })
        | (some g3, cmt3) =>
          let svc3 := { svc2 with start_mode := some g3 }
          match cmt_gauge_create env.create_status cmt3 "windows" "service" "status"
              "A status of the service" 2 ["name", "status"] with
          | (none, cmt4) => (-1, { ctx with cmt := cmt4, wmi_service := some svc3 })
          | (some g4, cmt4) =>
            let svc4 := { svc3 with status := some g4 }
            -- ctx->wmi_service->info = flb_calloc(1, sizeof(struct wmi_query_spec));
            if !env.calloc_spec then
              (-1, { ctx with cmt := cmt4, wmi_service := some svc4 })
            else
              let spec : wmi_query_spec :=
                { metric_instance := some g4,
                  type := cmt_type.CMT_GAUGE,
                  value_adjuster := nop_adjust,
                  wmi_counter := "Win32_Service",
                  wmi_property := "",
                  label_property_count := 0,
                  label_property_keys := none,
                  where_clause := ctx.raw_where_clause }
              (0, { ctx with cmt := cmt4,
                             wmi_service := some { svc4 with info := some spec,
                                                             operational := true } })

/-- The operational flag of the collector state; a context without a
collector state is not operational. -/
def is_operational (ctx : flb_we) : Bool :=
  match ctx.wmi_service with
  | some svc => svc.operational
  | none => false

/-- Every allocation and construction of `we_wmi_service_init` succeeds: the
state allocation, the four gauge families and the query spec. -/
def InitEnv.all_constructed (env : InitEnv) : Bool :=
  env.calloc_counters && env.create_information && env.create_state &&
    env.create_start_mode && env.create_status && env.calloc_spec

/-- The QuerySpec invariant of the specification: the number of label keys
of the spec equals the label arity declared at creation of the gauge family
that is the spec's target metric. -/
def query_spec_invariant (spec : wmi_query_spec) : Prop :=
  match spec.metric_instance with
  | some g => spec.label_property_count = g.label_count
  | none => False

instance (spec : wmi_query_spec) : Decidable (query_spec_invariant spec) := by
  unfold query_spec_invariant; cases spec.metric_instance <;> infer_instance

/-! ## The collection cycle -/

/-- A record returned by the enumerator, as the row decoder sees it: the
text of each property by name. -/
abbrev IWbemClassObject := String → CStr

/-- Modelled from the spec: the row decoder `we_wmi_get_property_str_value`
(defined in `we_wmi.c`) returns the textual value of the named property of the
record; it is total, an absent or untyped property being the empty string. -/
def we_wmi_get_property_str_value (raw_property_key : String) (class_obj : IWbemClassObject) :
    CStr :=
  class_obj raw_property_key

/-- Outcomes of the external calls of one cycle: whether `we_wmi_coinitialize`
succeeds, the value `cfl_time_now` returns, and the result of
`we_wmi_execute_query` (`none` = failure, otherwise the records the
enumerator will deliver). -/
structure UpdateEnv where
  coinitialize_ok : Bool
  now : Nat
  query : Option (List IWbemClassObject)

/-- The body of the `while (enumerator)` loop for one record: decode the seven
properties, set the information gauge, run the three one-hot loops, release
the record. -/
def row_body (svc : we_wmi_service_counters) (timestamp : Nat) (class_obj : IWbemClassObject) :
    List Event :=
  let service_name := we_wmi_get_property_str_value "Name" class_obj
  let display_name := we_wmi_get_property_str_value "DisplayName" class_obj
  let pid := we_wmi_get_property_str_value "ProcessID" class_obj
  let run_as := we_wmi_get_property_str_value "StartName" class_obj
  let state := we_wmi_get_property_str_value "State" class_obj
  let start_mode := we_wmi_get_property_str_value "StartMode" class_obj
  let status := we_wmi_get_property_str_value "Status" class_obj
  [Event.gauge_set ⟨svc.information, timestamp, 1, 4,
      [service_name, display_name, pid, run_as]⟩]
    ++ onehot_loop svc.state timestamp service_name state states
    ++ onehot_loop svc.start_mode timestamp service_name start_mode start_modes
    ++ onehot_loop svc.status timestamp service_name status statuses
    ++ [Event.object_release]

/-- The `while (enumerator)` loop: `Next` delivers one record per iteration
and the loop ends when it delivers none. -/
def enumerator_loop (svc : we_wmi_service_counters) (timestamp : Nat) :
    List IWbemClassObject → List Event
  | [] => [Event.enumerator_next false]
  | class_obj :: rest =>
    Event.enumerator_next true :: (row_body svc timestamp class_obj
      ++ enumerator_loop svc timestamp rest)

/-- The function `we_wmi_service_update`: the status code and the calls made.
The result is `none` when `ctx->wmi_service` is NULL, where the function
dereferences a null pointer. -/
def we_wmi_service_update (env : UpdateEnv) (ctx : flb_we) : Option (Int × List Event) :=
  match ctx.wmi_service with
  | none => none
  | some svc =>
    if !svc.operational then
      some (-1, [Event.plg_error "windows_service collector not yet in operational state"])
    else if !env.coinitialize_ok then
      some (-1, [Event.coinitialize false])
    else
      match env.query with
      | none =>
        some (-1, [Event.coinitialize true, Event.time_now env.now, Event.execute_query false])
      | some rows =>
        some (0, [Event.coinitialize true, Event.time_now env.now, Event.execute_query true]
                  ++ enumerator_loop svc env.now rows
                  ++ [Event.enumerator_release, Event.cleanup])

/-! ## The specification's encoder and cycle output -/

/-- The categorical encoder in the words of the specification: for each
entry of the vocabulary, in order, value 1.0 if the observed value equals the
entry ignoring case and 0.0 otherwise, with label tuple (identity, entry). -/
def encode_onehot (target_metric : Option cmt_gauge) (timestamp : Nat)
    (identity_label observed_value : CStr) (vocabulary : List CStr) : List Observation :=
  vocabulary.map fun entry =>
    { gauge := target_metric, timestamp := timestamp,
      val := if eqIgnoreAsciiCase observed_value entry then 1 else 0,
      labels_count := 2, label_vals := [identity_label, entry] }

/-- The state vocabulary as listed in the specification's end-to-end example. -/
def spec_states : List CStr :=
  ["stopped", "start pending", "stop pending", "running", "continue pending",
   "pause pending", "paused", "unknown"].map String.toList

/-- The start-mode vocabulary as listed in the specification's example. -/
def spec_start_modes : List CStr :=
  ["boot", "system", "auto", "manual", "disabled"].map String.toList

/-- The status vocabulary as listed in the specification's example. -/
def spec_statuses : List CStr :=
  ["ok", "error", "degraded", "unknown", "pred fail", "starting", "stopping", "service",
   "stressed", "nonrecover", "no contact", "lost comm"].map String.toList

/-- The observations the specification prescribes for one decoded row: the
information observation, then the state, start-mode and status encodings. -/
def row_observations (svc : we_wmi_service_counters) (timestamp : Nat)
    (row : IWbemClassObject) : List Observation :=
  [{ gauge := svc.information, timestamp := timestamp, val := 1, labels_count := 4,
     label_vals := [row "Name", row "DisplayName", row "ProcessID", row "StartName"] }]
    ++ encode_onehot svc.state timestamp (row "Name") (row "State") spec_states
    ++ encode_onehot svc.start_mode timestamp (row "Name") (row "StartMode") spec_start_modes
    ++ encode_onehot svc.status timestamp (row "Name") (row "Status") spec_statuses

/-- Number of observations of a list whose value is 1.0. -/
def hot_count (obs : List Observation) : Nat :=
  obs.countP fun o => decide (o.val = 1)


/-! ## Concrete inputs -/

/-- A context before initialisation. -/
def fresh_ctx : flb_we := { cmt := [], raw_where_clause := none, wmi_service := none }

/-- Every allocation and construction of init succeeds. -/
def init_ok : InitEnv :=
  { calloc_counters := true, create_information := true, create_state := true,
    create_start_mode := true, create_status := true, calloc_spec := true }

/-- The context left by a successful `we_wmi_service_init`. -/
def ready_ctx : flb_we := (we_wmi_service_init init_ok fresh_ctx).2

/-- The information gauge family of `we_wmi_service_init`. -/
def information_gauge : cmt_gauge :=
  ⟨"windows", "service", "info", "A metric for Windows Service information",
   4, ["name", "display_name", "process_id", "run_as"]⟩

/-- The state gauge family of `we_wmi_service_init`. -/
def state_gauge : cmt_gauge :=
  ⟨"windows", "service", "state", "A state of the service", 2, ["name", "state"]⟩

/-- The start-mode gauge family of `we_wmi_service_init`. -/
def start_mode_gauge : cmt_gauge :=
  ⟨"windows", "service", "start_mode", "A start mode of the service", 2,
   ["name", "start_mode"]⟩

/-- The status gauge family of `we_wmi_service_init`. -/
def status_gauge : cmt_gauge :=
  ⟨"windows", "service", "status", "A status of the service", 2, ["name", "status"]⟩

/-- The collector state left by a successful `we_wmi_service_init` on
`fresh_ctx`. -/
def ready_svc : we_wmi_service_counters :=
  { operational := true,
    information := some information_gauge,
    state := some state_gauge,
    start_mode := some start_mode_gauge,
    status := some status_gauge,
    info := some { metric_instance := some status_gauge,
                   type := cmt_type.CMT_GAUGE,
                   value_adjuster := nop_adjust,
                   wmi_counter := "Win32_Service",
                   wmi_property := "",
                   label_property_count := 0,
                   label_property_keys := none,
                   where_clause := none } }

/-- The row of the specification's end-to-end example; the properties the
example does not give are empty. -/
def example_row : IWbemClassObject := fun key =>
  if key = "Name" then "MyService".toList
  else if key = "State" then "Running".toList
  else if key = "StartMode" then "Auto".toList
  else if key = "Status" then "OK".toList
  else []

/-- A cycle whose query delivers the example row at time 1000. -/
def example_env : UpdateEnv :=
  { coinitialize_ok := true, now := 1000, query := some [example_row] }

/-- A cycle whose transport is acquired and whose query fails. -/
def query_fails_env : UpdateEnv :=
  { coinitialize_ok := true, now := 1000, query := none }

/-- A collector state that is not operational. -/
def idle_svc : we_wmi_service_counters :=
  { operational := false, information := none, state := none,
    start_mode := none, status := none, info := none }

/-- The `cfl_time_now` calls of a trace. -/
def is_time_now : Event → Bool
  | Event.time_now _ => true
  | _ => false

/-- The 26 observations of the specification's end-to-end example, for a row
of the given display name, process id and account. -/
def example_observations (svc : we_wmi_service_counters) (t : Nat)
    (display_name pid run_as : CStr) : List Observation :=
  [ ⟨svc.information, t, 1, 4, ["MyService".toList, display_name, pid, run_as]⟩,
    ⟨svc.state, t, 0, 2, ["MyService".toList, "stopped".toList]⟩,
    ⟨svc.state, t, 0, 2, ["MyService".toList, "start pending".toList]⟩,
    ⟨svc.state, t, 0, 2, ["MyService".toList, "stop pending".toList]⟩,
    ⟨svc.state, t, 1, 2, ["MyService".toList, "running".toList]⟩,
    ⟨svc.state, t, 0, 2, ["MyService".toList, "continue pending".toList]⟩,
    ⟨svc.state, t, 0, 2, ["MyService".toList, "pause pending".toList]⟩,
    ⟨svc.state, t, 0, 2, ["MyService".toList, "paused".toList]⟩,
    ⟨svc.state, t, 0, 2, ["MyService".toList, "unknown".toList]⟩,
    ⟨svc.start_mode, t, 0, 2, ["MyService".toList, "boot".toList]⟩,
    ⟨svc.start_mode, t, 0, 2, ["MyService".toList, "system".toList]⟩,
    ⟨svc.start_mode, t, 1, 2, ["MyService".toList, "auto".toList]⟩,
    ⟨svc.start_mode, t, 0, 2, ["MyService".toList, "manual".toList]⟩,
    ⟨svc.start_mode, t, 0, 2, ["MyService".toList, "disabled".toList]⟩,
    ⟨svc.status, t, 1, 2, ["MyService".toList, "ok".toList]⟩,
    ⟨svc.status, t, 0, 2, ["MyService".toList, "error".toList]⟩,
    ⟨svc.status, t, 0, 2, ["MyService".toList, "degraded".toList]⟩,
    ⟨svc.status, t, 0, 2, ["MyService".toList, "unknown".toList]⟩,
    ⟨svc.status, t, 0, 2, ["MyService".toList, "pred fail".toList]⟩,
    ⟨svc.status, t, 0, 2, ["MyService".toList, "starting".toList]⟩,
    ⟨svc.status, t, 0, 2, ["MyService".toList, "stopping".toList]⟩,
    ⟨svc.status, t, 0, 2, ["MyService".toList, "service".toList]⟩,
    ⟨svc.status, t, 0, 2, ["MyService".toList, "stressed".toList]⟩,
    ⟨svc.status, t, 0, 2, ["MyService".toList, "nonrecover".toList]⟩,
    ⟨svc.status, t, 0, 2, ["MyService".toList, "no contact".toList]⟩,
    ⟨svc.status, t, 0, 2, ["MyService".toList, "lost comm".toList]⟩ ]

/-! ## `strcasecmp` decides equality ignoring ASCII case -/

theorem tolower_NUL : tolower NUL = 0 := by decide

theorem tolower_eq_zero (c : Char) : tolower c = 0 ↔ c = NUL := by
  constructor
  · intro h
    unfold tolower at h
    have h0 : c.toNat = 0 := by
      split at h <;> omega
    unfold NUL
    apply Char.ext
    apply UInt32.ext
    simpa [Char.toNat] using h0
  · rintro rfl
    exact tolower_NUL

theorem cstr_nil : cstr [] = [] := rfl

theorem cstr_cons (a : Char) (s : CStr) :
    cstr (a :: s) = if a = NUL then [] else a :: cstr s := by
  unfold cstr
  by_cases h : a = NUL <;> simp [List.takeWhile_cons, h]

theorem strcasecmp_eq_zero_iff (s v : CStr) :
    strcasecmp s v = 0 ↔ eqIgnoreAsciiCase s v := by
  unfold eqIgnoreAsciiCase
  induction s generalizing v with
  | nil =>
    cases v with
    | nil => simp [strcasecmp]
    | cons b s2 =>
      have hb := tolower_eq_zero b
      by_cases h : b = NUL
      · simp [strcasecmp, cstr_cons, cstr_nil, h, tolower_NUL]
      · have : tolower b ≠ 0 := fun e => h (hb.1 e)
        simp [strcasecmp, cstr_cons, cstr_nil, h]
        omega
  | cons a s1 ih =>
    cases v with
    | nil =>
      have ha := tolower_eq_zero a
      by_cases h : a = NUL
      · simp [strcasecmp, cstr_cons, cstr_nil, h, tolower_NUL]
      · have : tolower a ≠ 0 := fun e => h (ha.1 e)
        simp [strcasecmp, cstr_cons, cstr_nil, h]
        omega
    | cons b s2 =>
      have ha := tolower_eq_zero a
      have hb := tolower_eq_zero b
      by_cases hab : tolower a = tolower b
      · by_cases h : a = NUL
        · have hb2 : b = NUL := hb.1 (by rw [← hab]; exact ha.2 h)
          simp [strcasecmp, cstr_cons, h, hb2]
        · have hb2 : b ≠ NUL := fun e => h (ha.1 (by rw [hab]; exact hb.2 e))
          simp [strcasecmp, cstr_cons, h, hb2, hab, ih s2]
      · have hne : (tolower a : Int) - (tolower b : Int) ≠ 0 := by omega
        have hl : strcasecmp (a :: s1) (b :: s2) ≠ 0 := by
          rw [strcasecmp, if_neg hne]; exact hne
        have hr : ¬ (List.map tolower (cstr (a :: s1)) = List.map tolower (cstr (b :: s2))) := by
          by_cases h : a = NUL
          · have hb2 : b ≠ NUL := fun e => hab (by rw [ha.2 h, hb.2 e])
            simp [cstr_cons, h, hb2]
          · by_cases hb2 : b = NUL
            · simp [cstr_cons, h, hb2]
            · simp [cstr_cons, h, hb2, hab]
        exact ⟨fun e => absurd e hl, fun e => absurd e hr⟩


/-! ## The one-hot loop -/

theorem observations_append (a b : List Event) :
    observations (a ++ b) = observations a ++ observations b := by
  induction a with
  | nil => rfl
  | cons e es ih => cases e <;> simp [observations, ih]

theorem onehot_loop_eq_map (g : Option cmt_gauge) (t : Nat) (n s : CStr) (V : List CStr) :
    onehot_loop g t n s V = V.map fun v =>
      Event.gauge_set { gauge := g, timestamp := t,
                        val := if eqIgnoreAsciiCase s v then 1 else 0,
                        labels_count := 2, label_vals := [n, v] } := by
  induction V with
  | nil => rfl
  | cons v vs ih =>
    by_cases h : eqIgnoreAsciiCase s v
    · simp [onehot_loop, ih, h, (strcasecmp_eq_zero_iff s v).2 h]
    · have h0 : strcasecmp s v ≠ 0 := fun e => h ((strcasecmp_eq_zero_iff s v).1 e)
      simp [onehot_loop, ih, h, h0]

theorem observations_onehot_loop (g : Option cmt_gauge) (t : Nat) (n s : CStr) (V : List CStr) :
    observations (onehot_loop g t n s V) = encode_onehot g t n s V := by
  rw [onehot_loop_eq_map]
  unfold encode_onehot
  induction V with
  | nil => rfl
  | cons v vs ih => simp [observations, ih]

theorem hot_count_encode_onehot (g : Option cmt_gauge) (t : Nat) (n s : CStr) (V : List CStr) :
    hot_count (encode_onehot g t n s V)
      = V.countP fun v => decide (eqIgnoreAsciiCase s v) := by
  unfold hot_count encode_onehot
  induction V with
  | nil => rfl
  | cons v vs ih =>
    by_cases h : eqIgnoreAsciiCase s v <;> simp [List.countP_cons, h, ih]

theorem countP_eq_of_pairwise (s : CStr) (V : List CStr)
    (hV : V.Pairwise fun a b => ¬ eqIgnoreAsciiCase a b) :
    (V.countP fun v => decide (eqIgnoreAsciiCase s v))
      = if ∃ v ∈ V, eqIgnoreAsciiCase s v then 1 else 0 := by
  induction V with
  | nil => simp
  | cons v vs ih =>
    rw [List.pairwise_cons] at hV
    have ih2 := ih hV.2
    by_cases h : eqIgnoreAsciiCase s v
    · have hno : ¬ ∃ w ∈ vs, eqIgnoreAsciiCase s w := by
        rintro ⟨w, hw, hsw⟩
        apply hV.1 w hw
        unfold eqIgnoreAsciiCase at *
        rw [← h, hsw]
      rw [if_neg hno] at ih2
      have hyes : ∃ w ∈ v :: vs, eqIgnoreAsciiCase s w := ⟨v, List.mem_cons_self _ _, h⟩
      rw [if_pos hyes, List.countP_cons, ih2]
      simp [h]
    · rw [List.countP_cons, ih2]
      simp [h]

/-- C1. For every vocabulary, identity label, observed value, timestamp and
gauge, the one-hot loop of `we_wmi_service_update` makes exactly one
`cmt_gauge_set` call per vocabulary entry and nothing else, in vocabulary
order; the i-th call has labels (identity, i-th entry), the given timestamp,
and value 1.0 when the observed value equals the entry ignoring ASCII case
and 0.0 otherwise. -/
theorem onehot_loop_emits (V : List CStr) (n s : CStr) (t : Nat) (g : Option cmt_gauge) :
    (onehot_loop g t n s V = V.map fun v =>
      Event.gauge_set { gauge := g, timestamp := t,
                        val := if eqIgnoreAsciiCase s v then 1 else 0,
                        labels_count := 2, label_vals := [n, v] }) ∧
    (observations (onehot_loop g t n s V)).length = V.length ∧
    ∀ i : Fin V.length,
      (observations (onehot_loop g t n s V))[i.val]? =
        some { gauge := g, timestamp := t,
               val := if eqIgnoreAsciiCase s (V.get i) then 1 else 0,
               labels_count := 2, label_vals := [n, V.get i] } := by
  refine ⟨onehot_loop_eq_map g t n s V, ?_, ?_⟩
  · rw [observations_onehot_loop]; simp [encode_onehot]
  · intro i
    rw [observations_onehot_loop]
    simp [encode_onehot, List.getElem?_map]

theorem states_pairwise : states.Pairwise fun a b => ¬ eqIgnoreAsciiCase a b := by decide

theorem start_modes_pairwise : start_modes.Pairwise fun a b => ¬ eqIgnoreAsciiCase a b := by
  decide

theorem statuses_pairwise : statuses.Pairwise fun a b => ¬ eqIgnoreAsciiCase a b := by
  decide

theorem hot_count_of_pairwise (V : List CStr) (n s : CStr) (t : Nat) (g : Option cmt_gauge)
    (hV : V.Pairwise fun a b => ¬ eqIgnoreAsciiCase a b) :
    hot_count (observations (onehot_loop g t n s V))
      = if ∃ v ∈ V, eqIgnoreAsciiCase s v then 1 else 0 := by
  rw [observations_onehot_loop, hot_count_encode_onehot, countP_eq_of_pairwise s V hV]

theorem onehot_val_zero_or_one (V : List CStr) (n s : CStr) (t : Nat) (g : Option cmt_gauge) :
    ∀ o ∈ observations (onehot_loop g t n s V), o.val = 1 ∨ o.val = 0 := by
  rw [observations_onehot_loop]
  intro o ho
  unfold encode_onehot at ho
  rw [List.mem_map] at ho
  obtain ⟨v, _, rfl⟩ := ho
  by_cases h : eqIgnoreAsciiCase s v <;> simp [h]

/-- C10. The entries of each built-in vocabulary (8 states, 5 start modes,
12 statuses) are pairwise distinct ignoring ASCII case, and for every observed
string the observations of that family all have value 1.0 or 0.0, exactly one
of them 1.0 if the string equals some entry ignoring ASCII case and none
otherwise; the empty string and `"weird"` yield no 1.0 in any family. -/
theorem builtin_vocabularies_one_hot (n s : CStr) (t : Nat) (g : Option cmt_gauge) :
    (states.length = 8 ∧ start_modes.length = 5 ∧ statuses.length = 12) ∧
    ((states.Pairwise fun a b => ¬ eqIgnoreAsciiCase a b) ∧
     (start_modes.Pairwise fun a b => ¬ eqIgnoreAsciiCase a b) ∧
     (statuses.Pairwise fun a b => ¬ eqIgnoreAsciiCase a b)) ∧
    (hot_count (observations (onehot_loop g t n s states))
        = (if ∃ v ∈ states, eqIgnoreAsciiCase s v then 1 else 0) ∧
     hot_count (observations (onehot_loop g t n s start_modes))
        = (if ∃ v ∈ start_modes, eqIgnoreAsciiCase s v then 1 else 0) ∧
     hot_count (observations (onehot_loop g t n s statuses))
        = (if ∃ v ∈ statuses, eqIgnoreAsciiCase s v then 1 else 0)) ∧
    (∀ V ∈ [states, start_modes, statuses],
      ∀ o ∈ observations (onehot_loop g t n s V), o.val = 1 ∨ o.val = 0) ∧
    (∀ V ∈ [states, start_modes, statuses],
      hot_count (observations (onehot_loop g t n [] V)) = 0 ∧
      hot_count (observations (onehot_loop g t n "weird".toList V)) = 0) := by
  refine ⟨⟨rfl, rfl, rfl⟩,
   ⟨states_pairwise, start_modes_pairwise, statuses_pairwise⟩,
   ⟨hot_count_of_pairwise states n s t g states_pairwise,
    hot_count_of_pairwise start_modes n s t g start_modes_pairwise,
    hot_count_of_pairwise statuses n s t g statuses_pairwise⟩,
   fun V _ => onehot_val_zero_or_one V n s t g, ?_⟩
  intro V hV
  simp only [List.mem_cons, List.mem_singleton, List.not_mem_nil, or_false] at hV
  rcases hV with rfl | rfl | rfl
  · rw [hot_count_of_pairwise _ _ _ _ _ states_pairwise,
      hot_count_of_pairwise _ _ _ _ _ states_pairwise]
    exact ⟨if_neg (by decide), if_neg (by decide)⟩
  · rw [hot_count_of_pairwise _ _ _ _ _ start_modes_pairwise,
      hot_count_of_pairwise _ _ _ _ _ start_modes_pairwise]
    exact ⟨if_neg (by decide), if_neg (by decide)⟩
  · rw [hot_count_of_pairwise _ _ _ _ _ statuses_pairwise,
      hot_count_of_pairwise _ _ _ _ _ statuses_pairwise]
    exact ⟨if_neg (by decide), if_neg (by decide)⟩

/-! ## The collection cycle -/

theorem observations_row_body (svc : we_wmi_service_counters) (t : Nat)
    (row : IWbemClassObject) :
    observations (row_body svc t row) = row_observations svc t row := by
  unfold row_body row_observations we_wmi_get_property_str_value
  simp only [observations_append, observations_onehot_loop]
  simp [observations]
  rfl

theorem observations_enumerator_loop (svc : we_wmi_service_counters) (t : Nat)
    (rows : List IWbemClassObject) :
    observations (enumerator_loop svc t rows) = (rows.map (row_observations svc t)).flatten := by
  induction rows with
  | nil => rfl
  | cons r rs ih =>
    have h : observations (enumerator_loop svc t (r :: rs))
        = observations (row_body svc t r ++ enumerator_loop svc t rs) := rfl
    rw [h, observations_append, observations_row_body, ih]
    simp

theorem ready_ctx_service : ready_ctx.wmi_service = some ready_svc := rfl

theorem update_success (env : UpdateEnv) (ctx : flb_we) (svc : we_wmi_service_counters)
    (rows : List IWbemClassObject)
    (hs : ctx.wmi_service = some svc) (hop : svc.operational = true)
    (hco : env.coinitialize_ok = true) (hq : env.query = some rows) :
    we_wmi_service_update env ctx =
      some (0, [Event.coinitialize true, Event.time_now env.now, Event.execute_query true]
                ++ enumerator_loop svc env.now rows
                ++ [Event.enumerator_release, Event.cleanup]) := by
  unfold we_wmi_service_update
  rw [hs]
  simp only [hop, hco, hq, Bool.not_true, Bool.false_eq_true, if_false]

theorem observations_success_trace (svc : we_wmi_service_counters) (t : Nat)
    (rows : List IWbemClassObject) :
    observations ([Event.coinitialize true, Event.time_now t, Event.execute_query true]
                ++ enumerator_loop svc t rows
                ++ [Event.enumerator_release, Event.cleanup])
      = (rows.map (row_observations svc t)).flatten := by
  rw [observations_append, observations_append, observations_enumerator_loop]
  simp [observations]

theorem example_row_observations (svc : we_wmi_service_counters) (t : Nat)
    (row : IWbemClassObject)
    (hname : row "Name" = "MyService".toList) (hstate : row "State" = "Running".toList)
    (hmode : row "StartMode" = "Auto".toList) (hstatus : row "Status" = "OK".toList) :
    row_observations svc t row
      = example_observations svc t (row "DisplayName") (row "ProcessID") (row "StartName") := by
  unfold row_observations
  rw [hname, hstate, hmode, hstatus]
  rfl

/-- C3. When the collector is operational, the transport is acquired and the
query succeeds with any list of rows (the empty list included),
`we_wmi_service_update` returns 0 and its observations are, row after row, the
information observation (value 1.0, labels Name, DisplayName, ProcessID,
StartName) followed by the one-hot encodings of State, StartMode and Status
against the 8-entry, 5-entry and 12-entry vocabularies of the specification's
example, each keyed by the service name; a single row (MyService, Running,
Auto, OK) yields exactly the 26 observations of the example. -/
theorem update_emits_rows (env : UpdateEnv) (ctx : flb_we) (svc : we_wmi_service_counters)
    (rows : List IWbemClassObject)
    (hs : ctx.wmi_service = some svc) (hop : svc.operational = true)
    (hco : env.coinitialize_ok = true) (hq : env.query = some rows) :
    (∃ trace, we_wmi_service_update env ctx = some (0, trace) ∧
        observations trace = (rows.map (row_observations svc env.now)).flatten) ∧
    (states = spec_states ∧ start_modes = spec_start_modes ∧ statuses = spec_statuses) ∧
    (spec_states.length = 8 ∧ spec_start_modes.length = 5 ∧ spec_statuses.length = 12) ∧
    (∀ row : IWbemClassObject, rows = [row] →
      row "Name" = "MyService".toList → row "State" = "Running".toList →
      row "StartMode" = "Auto".toList → row "Status" = "OK".toList →
      ∃ trace, we_wmi_service_update env ctx = some (0, trace) ∧
        observations trace
          = example_observations svc env.now (row "DisplayName") (row "ProcessID")
              (row "StartName") ∧
        (observations trace).length = 26) := by
  refine ⟨⟨_, update_success env ctx svc rows hs hop hco hq,
            observations_success_trace svc env.now rows⟩,
          ⟨rfl, rfl, rfl⟩, ⟨rfl, rfl, rfl⟩, ?_⟩
  intro row hrows hname hstate hmode hstatus
  refine ⟨_, update_success env ctx svc rows hs hop hco hq, ?_, ?_⟩
  · rw [observations_success_trace, hrows]
    simp [example_row_observations svc env.now row hname hstate hmode hstatus]
  · rw [observations_success_trace, hrows]
    simp [example_row_observations svc env.now row hname hstate hmode hstatus,
      example_observations]

theorem update_emits_rows_witness :
    (ready_ctx.wmi_service = some ready_svc ∧ ready_svc.operational = true ∧
      example_env.coinitialize_ok = true ∧ example_env.query = some [example_row]) ∧
    ∃ trace, we_wmi_service_update example_env ready_ctx = some (0, trace) ∧
      observations trace = example_observations ready_svc 1000 [] [] [] ∧
      (observations trace).length = 26 :=
  ⟨⟨rfl, rfl, rfl, rfl⟩,
   (update_emits_rows example_env ready_ctx ready_svc [example_row] rfl rfl rfl rfl).2.2.2
      example_row rfl rfl rfl rfl rfl⟩

/-- C4. When the operational flag of the collector state is false,
`we_wmi_service_update` returns -1 after logging the error; it emits no
observation, does not call `we_wmi_coinitialize` and does not execute the
query. -/
theorem update_not_operational (env : UpdateEnv) (ctx : flb_we)
    (svc : we_wmi_service_counters)
    (hs : ctx.wmi_service = some svc) (hop : svc.operational = false) :
    ∃ trace, we_wmi_service_update env ctx = some (-1, trace) ∧
      observations trace = [] ∧
      (∀ ok, Event.coinitialize ok ∉ trace) ∧
      (∀ ok, Event.execute_query ok ∉ trace) ∧
      trace = [Event.plg_error "windows_service collector not yet in operational state"] := by
  refine ⟨[Event.plg_error "windows_service collector not yet in operational state"],
    ?_, rfl, ?_, ?_, rfl⟩
  · unfold we_wmi_service_update
    rw [hs]
    simp [hop]
  · intro ok; simp
  · intro ok; simp

theorem update_not_operational_witness :
    (({ ready_ctx with wmi_service := some idle_svc } : flb_we).wmi_service = some idle_svc ∧
      idle_svc.operational = false) ∧
    ∃ trace, we_wmi_service_update example_env { ready_ctx with wmi_service := some idle_svc }
        = some (-1, trace) ∧
      observations trace = [] ∧
      (∀ ok, Event.coinitialize ok ∉ trace) ∧
      (∀ ok, Event.execute_query ok ∉ trace) ∧
      trace = [Event.plg_error "windows_service collector not yet in operational state"] :=
  ⟨⟨rfl, rfl⟩,
   update_not_operational example_env { ready_ctx with wmi_service := some idle_svc }
     idle_svc rfl rfl⟩

/-- C5. When the collector is operational and either the transport
acquisition fails or the query fails, `we_wmi_service_update` returns -1 and
emits no observation of any family. -/
theorem update_transport_failure (env : UpdateEnv) (ctx : flb_we)
    (svc : we_wmi_service_counters)
    (hs : ctx.wmi_service = some svc) (hop : svc.operational = true)
    (hfail : env.coinitialize_ok = false ∨ env.query = none) :
    ∃ trace, we_wmi_service_update env ctx = some (-1, trace) ∧
      observations trace = [] ∧ ∀ o, Event.gauge_set o ∉ trace := by
  unfold we_wmi_service_update
  rw [hs]
  by_cases hco : env.coinitialize_ok = true
  · have hq : env.query = none := by
      rcases hfail with h | h
      · rw [h] at hco; exact absurd hco (by decide)
      · exact h
    refine ⟨[Event.coinitialize true, Event.time_now env.now, Event.execute_query false],
      ?_, rfl, ?_⟩
    · simp [hop, hco, hq]
    · intro o; simp
  · refine ⟨[Event.coinitialize false], ?_, rfl, ?_⟩
    · simp [hop, hco]
    · intro o; simp

theorem update_transport_failure_witness :
    (ready_ctx.wmi_service = some ready_svc ∧ ready_svc.operational = true ∧
      (query_fails_env.coinitialize_ok = false ∨ query_fails_env.query = none)) ∧
    ∃ trace, we_wmi_service_update query_fails_env ready_ctx = some (-1, trace) ∧
      observations trace = [] ∧ ∀ o, Event.gauge_set o ∉ trace :=
  ⟨⟨rfl, rfl, Or.inr rfl⟩,
   update_transport_failure query_fails_env ready_ctx ready_svc rfl rfl (Or.inr rfl)⟩

/-- C6, at the failing input. With the transport acquired and the query
failing, `we_wmi_service_update` returns -1 right after the query: the calls
made are `we_wmi_coinitialize`, `cfl_time_now` and `we_wmi_execute_query`, and
`we_wmi_cleanup` is not among them; on the path where the query succeeds the
last call is `we_wmi_cleanup`. -/
theorem update_query_failure_no_cleanup :
    (we_wmi_service_update query_fails_env ready_ctx
      = some (-1, [Event.coinitialize true, Event.time_now 1000, Event.execute_query false]) ∧
     Event.cleanup ∉
      [Event.coinitialize true, Event.time_now 1000, Event.execute_query false]) ∧
    (∃ trace, we_wmi_service_update example_env ready_ctx = some (0, trace) ∧
      trace.getLast? = some Event.cleanup) :=
  ⟨⟨rfl, by decide⟩, _, rfl, by decide⟩

/-! ## One timestamp per cycle -/

theorem row_observations_timestamp (svc : we_wmi_service_counters) (t : Nat)
    (row : IWbemClassObject) :
    ∀ o ∈ row_observations svc t row, o.timestamp = t := by
  intro o ho
  unfold row_observations encode_onehot at ho
  simp only [List.mem_append, List.mem_map, List.mem_singleton] at ho
  rcases ho with ((rfl | ⟨_, _, rfl⟩) | ⟨_, _, rfl⟩) | ⟨_, _, rfl⟩ <;> rfl

theorem onehot_loop_no_time_now (g : Option cmt_gauge) (t : Nat) (n s : CStr) (V : List CStr) :
    ∀ e ∈ onehot_loop g t n s V, is_time_now e = false := by
  rw [onehot_loop_eq_map]
  intro e he
  rw [List.mem_map] at he
  obtain ⟨_, _, rfl⟩ := he
  rfl

theorem row_body_no_time_now (svc : we_wmi_service_counters) (t : Nat)
    (row : IWbemClassObject) :
    ∀ e ∈ row_body svc t row, is_time_now e = false := by
  intro e he
  unfold row_body at he
  simp only [List.mem_append, List.mem_singleton] at he
  rcases he with (((rfl | h) | h) | h) | rfl
  · rfl
  · exact onehot_loop_no_time_now _ _ _ _ _ e h
  · exact onehot_loop_no_time_now _ _ _ _ _ e h
  · exact onehot_loop_no_time_now _ _ _ _ _ e h
  · rfl

theorem enumerator_loop_no_time_now (svc : we_wmi_service_counters) (t : Nat)
    (rows : List IWbemClassObject) :
    ∀ e ∈ enumerator_loop svc t rows, is_time_now e = false := by
  induction rows with
  | nil =>
    intro e he
    simp only [enumerator_loop, List.mem_singleton] at he
    rw [he]; rfl
  | cons r rs ih =>
    intro e he
    have h : enumerator_loop svc t (r :: rs)
        = Event.enumerator_next true :: (row_body svc t r ++ enumerator_loop svc t rs) := rfl
    rw [h, List.mem_cons, List.mem_append] at he
    rcases he with rfl | h1 | h2
    · rfl
    · exact row_body_no_time_now svc t r e h1
    · exact ih e h2

/-- C8. Every observation emitted by one invocation of
`we_wmi_service_update` carries the value returned by `cfl_time_now`; that
function is called at most once in the invocation, and whenever an observation
is emitted the call comes right before the query is executed. -/
theorem update_single_timestamp (env : UpdateEnv) (ctx : flb_we) (r : Int)
    (trace : List Event) (h : we_wmi_service_update env ctx = some (r, trace)) :
    (∀ o ∈ observations trace, o.timestamp = env.now) ∧
    trace.countP is_time_now ≤ 1 ∧
    (observations trace ≠ [] → ∃ rest,
      trace = Event.coinitialize true :: Event.time_now env.now
                :: Event.execute_query true :: rest) := by
  unfold we_wmi_service_update at h
  cases hs : ctx.wmi_service with
  | none => rw [hs] at h; exact absurd h (by simp)
  | some svc =>
    rw [hs] at h
    by_cases hop : svc.operational = true
    · by_cases hco : env.coinitialize_ok = true
      · cases hq : env.query with
        | none =>
          simp [hop, hco, hq] at h
          obtain ⟨_, rfl⟩ := h
          exact ⟨by simp [observations], by simp [List.countP_cons, is_time_now],
            by simp [observations]⟩
        | some rows =>
          simp only [hop, hco, hq, Bool.not_true, Bool.false_eq_true, if_false,
            Option.some.injEq, Prod.mk.injEq] at h
          obtain ⟨_, rfl⟩ := h
          refine ⟨?_, ?_, fun _ => ⟨_, rfl⟩⟩
          · rw [observations_success_trace]
            intro o ho
            rw [List.mem_flatten] at ho
            obtain ⟨l, hl, hol⟩ := ho
            rw [List.mem_map] at hl
            obtain ⟨row, _, rfl⟩ := hl
            exact row_observations_timestamp svc env.now row o hol
          · have h0 : (enumerator_loop svc env.now rows).countP is_time_now = 0 := by
              rw [List.countP_eq_zero]
              intro e he
              simp [enumerator_loop_no_time_now svc env.now rows e he]
            simp [List.countP_cons, List.countP_append, h0, is_time_now]
      · simp [hop, hco] at h
        obtain ⟨_, rfl⟩ := h
        exact ⟨by simp [observations], by decide, by simp [observations]⟩
    · simp [hop] at h
      obtain ⟨_, rfl⟩ := h
      exact ⟨by simp [observations], by decide, by simp [observations]⟩

theorem update_single_timestamp_witness :
    we_wmi_service_update example_env ready_ctx
      = some (0, [Event.coinitialize true, Event.time_now 1000, Event.execute_query true]
                  ++ enumerator_loop ready_svc 1000 [example_row]
                  ++ [Event.enumerator_release, Event.cleanup]) ∧
    (∀ o ∈ observations ([Event.coinitialize true, Event.time_now 1000,
          Event.execute_query true] ++ enumerator_loop ready_svc 1000 [example_row]
          ++ [Event.enumerator_release, Event.cleanup]), o.timestamp = 1000) :=
  ⟨rfl, (update_single_timestamp example_env ready_ctx 0 _ rfl).1⟩

/-! ## Initialisation -/

/-- C7. Whatever the outcome of the allocations and gauge-family
constructions, `we_wmi_service_init` returns 0 when the state allocation, the
four gauge families and the query spec are all constructed and -1 otherwise,
and the collector is operational afterwards exactly when all of them were
constructed. -/
theorem init_operational_iff (env : InitEnv) (ctx : flb_we) :
    (we_wmi_service_init env ctx).1 = (if env.all_constructed = true then 0 else -1) ∧
    is_operational (we_wmi_service_init env ctx).2 = env.all_constructed ∧
    (env.all_constructed = true ↔
      env.calloc_counters = true ∧ env.create_information = true ∧ env.create_state = true ∧
      env.create_start_mode = true ∧ env.create_status = true ∧ env.calloc_spec = true) := by
  obtain ⟨a, b, c, d, e, f⟩ := env
  cases a <;> cases b <;> cases c <;> cases d <;> cases e <;> cases f <;>
    simp [we_wmi_service_init, cmt_gauge_create, is_operational, InitEnv.all_constructed]

/-- C9, as stated, fails: after a successful `we_wmi_service_init` the query
spec has no label keys while its target metric, the status gauge family, was
declared with two labels. -/
theorem init_spec_breaks_invariant :
    (we_wmi_service_init init_ok fresh_ctx).1 = 0 ∧
    ∃ svc spec, (we_wmi_service_init init_ok fresh_ctx).2.wmi_service = some svc ∧
      svc.info = some spec ∧ ¬ query_spec_invariant spec :=
  ⟨rfl, ready_svc, _, rfl, rfl, by decide⟩

/-- C9, amended. After every successful `we_wmi_service_init` the query spec
has label count 0 and no label keys, and its target metric is the status gauge
family, which was declared with label arity 2. -/
theorem init_spec_labels (env : InitEnv) (ctx : flb_we)
    (hok : (we_wmi_service_init env ctx).1 = 0) :
    ∃ svc spec g, (we_wmi_service_init env ctx).2.wmi_service = some svc ∧
      svc.info = some spec ∧
      spec.label_property_count = 0 ∧ spec.label_property_keys = none ∧
      spec.metric_instance = some g ∧ svc.status = some g ∧
      g.name = "status" ∧ g.label_count = 2 ∧ g.label_keys = ["name", "status"] := by
  obtain ⟨a, b, c, d, e, f⟩ := env
  cases a <;> cases b <;> cases c <;> cases d <;> cases e <;> cases f <;>
    simp [we_wmi_service_init, cmt_gauge_create] at hok ⊢

theorem init_spec_labels_witness :
    (we_wmi_service_init init_ok fresh_ctx).1 = 0 ∧
    ∃ svc spec g, (we_wmi_service_init init_ok fresh_ctx).2.wmi_service = some svc ∧
      svc.info = some spec ∧
      spec.label_property_count = 0 ∧ spec.label_property_keys = none ∧
      spec.metric_instance = some g ∧ svc.status = some g ∧
      g.name = "status" ∧ g.label_count = 2 ∧ g.label_keys = ["name", "status"] :=
  ⟨rfl, init_spec_labels init_ok fresh_ctx rfl⟩

end WmiService
